import Mathlib

/-!
Verification of the agent workflow program in `src/agent.py` (a multi-agent
GitHub pull-request review workflow).  Pure Python functions are embedded as
Lean functions; Python dictionaries with string keys become association
lists; code that may raise an exception is embedded through `Except String`
with an explicit try/except combinator; the orchestration loop, which lives
in the `llama_index` library rather than in the repository source, is
modelled from the specification.
-/

namespace AgentPy

/-! ## Shared workflow state: a Python dict from string keys to string values -/

/-- A Python `dict` with string keys and string values, as an association
list whose keys are unique from the front. -/
abbrev StateMap := List (String × String)

/-- Python `d[k]` lookup (as an `Option`): the value at the first matching
key, if any. -/
def getKey : StateMap → String → Option String
  | [], _ => none
  | (k', v') :: rest, k => if k' = k then some v' else getKey rest k

/-- Python `d[k] = v` assignment: overwrite the first binding of `k` if
present, otherwise append a new binding. -/
def setKey : StateMap → String → String → StateMap
  | [], k, v => [(k, v)]
  | (k', v') :: rest, k, v =>
      if k' = k then (k, v) :: rest else (k', v') :: setKey rest k v

/-- From `src/agent.py` (`add_context_to_state`): read the workflow state
dict from the context store, assign `state["gathered_contexts"] = context`,
write it back, and return the success message.  The `ctx.store.get`/`set`
plumbing around the in-memory dict is the identity on the dict itself, so
the function is embedded as its effect on the state dict plus the returned
string. -/
def add_context_to_state (current_state : StateMap) (context : String) :
    StateMap × String :=
  (setKey current_state "gathered_contexts" context,
   "Context added to state successfully.")

/-- From `src/agent.py` (`add_comment_to_state`): assign
`state["review_comment"] = draft_comment` and return the success message. -/
def add_comment_to_state (current_state : StateMap) (draft_comment : String) :
    StateMap × String :=
  (setKey current_state "review_comment" draft_comment,
   "Draft comment added to state successfully.")

/-- From `src/agent.py` (`add_final_review_to_state`): assign
`state["final_review_comment"] = final_review` and return the success
message. -/
def add_final_review_to_state (current_state : StateMap) (final_review : String) :
    StateMap × String :=
  (setKey current_state "final_review_comment" final_review,
   "Final review added to state successfully.")

/-- The three state-update tools of `src/agent.py`, as one enumeration. -/
inductive StateOp
  | addContext
  | addComment
  | addFinalReview
deriving DecidableEq

/-- Dispatch a `StateOp` to the corresponding source function. -/
def runOp : StateOp → StateMap → String → StateMap × String
  | .addContext, st, v => add_context_to_state st v
  | .addComment, st, v => add_comment_to_state st v
  | .addFinalReview, st, v => add_final_review_to_state st v

/-- The state key each `StateOp` writes. -/
def opKey : StateOp → String
  | .addContext => "gathered_contexts"
  | .addComment => "review_comment"
  | .addFinalReview => "final_review_comment"

/-! ## Python exceptions and the GitHub tool handlers

A Python expression that may raise is embedded as `Except String α`, the
`String` carrying `str(e)`.  The network calls a handler makes are the
fallible points; attribute reads on already-fetched objects are pure. -/

/-- Python `try: <body> except Exception as e: return <handler>(str(e))`,
for a body whose normal paths all `return`. -/
def pyTry {α : Type} (body : Except String α) (handler : String → α) : α :=
  match body with
  | .ok a => a
  | .error e => handler e

/-- The `.head` object of a PyGithub pull request (may be `None`). -/
structure PRHead where
  sha : String
deriving Repr, DecidableEq

/-- The fields of a fetched PyGithub pull-request object that
`get_pr_details` reads. -/
structure PullRequestData where
  user_login : String
  title : String
  body : String
  diff_url : String
  state : String
  head : Option PRHead
deriving Repr, DecidableEq

/-- Outcomes of the two fallible calls made by `get_pr_details`:
`repo.get_pull(pr_number)` and the `pull_request.get_commits()` iteration
(the latter yielding the commit SHAs collected by the loop). -/
structure PRFetchEnv where
  get_pull : Except String PullRequestData
  get_commits : Except String (List String)
deriving Repr

/-- The success dictionary built by `get_pr_details`. -/
structure PRDetails where
  user : String
  author : String
  title : String
  body : String
  diff_url : String
  state : String
  commit_SHAs : List String
  head_sha : Option String
deriving Repr, DecidableEq

/-- `get_pr_details` returns a dict: either the details dict or the
`{"error": ...}` dict. -/
inductive PRDetailsResult
  | details (d : PRDetails)
  | error (msg : String)
deriving Repr, DecidableEq

/-- The try-block of `get_pr_details` in `src/agent.py`: fetch the pull
request, collect commit SHAs, read `head.sha` when `head` is set, and build
the details dict. -/
def get_pr_details_body (env : PRFetchEnv) : Except String PRDetails :=
  Except.bind env.get_pull (fun pull_request =>
  Except.bind env.get_commits (fun commit_SHAs =>
  Except.ok
    { user := pull_request.user_login
      author := pull_request.user_login
      title := pull_request.title
      body := pull_request.body
      diff_url := pull_request.diff_url
      state := pull_request.state
      commit_SHAs := commit_SHAs
      head_sha := Option.map PRHead.sha pull_request.head }))

/-- From `src/agent.py` (`get_pr_details`): the try-block above with
`except Exception as e: return {"error": f"Failed to fetch PR details:
str(e)"}`. -/
def get_pr_details (env : PRFetchEnv) : PRDetailsResult :=
  pyTry (Except.map PRDetailsResult.details (get_pr_details_body env))
    (fun e => PRDetailsResult.error ("Failed to fetch PR details: " ++ e))

/-- The fields of a PyGithub file-contents object that `get_file_contents`
reads: its `encoding`, the result of `decoded_content.decode("utf-8")`
(decoding may itself raise), and the raw `content`. -/
structure FileContent where
  encoding : String
  decoded_content_utf8 : Except String String
  content : String
deriving Repr

/-- Outcome of the fallible `repo.get_contents(file_path)` call. -/
structure FileFetchEnv where
  get_contents : Except String FileContent
deriving Repr

/-- The try-block of `get_file_contents` in `src/agent.py`: fetch the file,
then return the utf-8 decoded content when the encoding is `"base64"`, and
the raw `content` attribute otherwise. -/
def get_file_contents_body (env : FileFetchEnv) : Except String String :=
  Except.bind env.get_contents (fun file_content =>
    if file_content.encoding = "base64" then file_content.decoded_content_utf8
    else Except.ok file_content.content)

/-- From `src/agent.py` (`get_file_contents`): the try-block above with
`except Exception as e: return f"Error fetching file: str(e)"`.  Both paths
return a plain string. -/
def get_file_contents (env : FileFetchEnv) : String :=
  pyTry (get_file_contents_body env) (fun e => "Error fetching file: " ++ e)

/-- One entry of the changed-files list built by `get_pr_commit_details`. -/
structure ChangedFile where
  filename : String
  status : String
  additions : Nat
  deletions : Nat
  changes : Nat
  patch : Option String
deriving Repr, DecidableEq

/-- Outcome of the fallible `repo.get_commit(commit_sha)` call together
with the `commit.files` iteration (yielding the changed-file dicts the loop
collects). -/
structure CommitFetchEnv where
  get_commit : Except String (List ChangedFile)
deriving Repr

/-- An element of the list returned by `get_pr_commit_details`: either a
changed-file dict or the single `{"error": ...}` dict. -/
inductive CommitFileEntry
  | file (f : ChangedFile)
  | error (msg : String)
deriving Repr, DecidableEq

/-- From `src/agent.py` (`get_pr_commit_details`): return the changed-files
list, with `except Exception as e: return [{"error": f"Failed to fetch
commit details: str(e)"}]`. -/
def get_pr_commit_details (env : CommitFetchEnv) : List CommitFileEntry :=
  pyTry (Except.map (fun fs => List.map CommitFileEntry.file fs) env.get_commit)
    (fun e => [CommitFileEntry.error ("Failed to fetch commit details: " ++ e)])

/-- Outcomes of the three fallible calls made by `post_review_to_github`:
`repo.get_pull(pr_number)`, `pull_request.create_review(body=comment)`
(yielding the new review id) and `pull_request.create_issue_comment(
body=comment)` (yielding the new comment id). -/
structure PostEnv where
  get_pull : Except String Unit
  create_review : Except String Nat
  create_issue_comment : Except String Nat
deriving Repr

/-- From `src/agent.py` (`post_review_to_github`): fetch the pull request;
then try the review API first and, only if it raises, fall back to the
issue-comment API; a failure of the fallback, like a failure of the fetch,
reaches the outer `except Exception as e: return f"Error posting review:
str(e)"`.  Exactly one string is returned in every case. -/
def post_review_to_github (env : PostEnv) (pr_number : Nat) (comment : String) :
    String :=
  pyTry
    (Except.bind env.get_pull (fun _ =>
      match env.create_review with
      | .ok review_id =>
          Except.ok ("Review posted successfully to PR #" ++ toString pr_number
            ++ ". Review ID: " ++ toString review_id)
      | .error _review_error =>
          Except.map
            (fun comment_id =>
              "Comment posted successfully to PR #" ++ toString pr_number
                ++ ". Comment ID: " ++ toString comment_id)
            env.create_issue_comment))
    (fun e => "Error posting review: " ++ e)

/-! ## Agent definitions and workflow configuration (from `src/agent.py`)

The `FunctionAgent` constructions carry an LLM handle and a long system
prompt besides the structural fields; the structural fields (name,
description, tool names, handoff targets) are what the orchestration model
needs. -/

/-- The structural fields of a `FunctionAgent` from `src/agent.py`. -/
structure AgentDef where
  name : String
  description : String
  tools : List String
  can_handoff_to : List String
deriving Repr, DecidableEq

/-- From `src/agent.py` (`context_agent`). -/
def context_agent : AgentDef :=
  { name := "ContextAgent"
    description :=
      "Gathers all needed context for PR review including details, diffs, and files."
    tools := ["get_pr_details", "get_file_contents", "get_pr_commit_details",
              "add_context_to_state"]
    can_handoff_to := ["CommentorAgent"] }

/-- From `src/agent.py` (`commentor_agent`). -/
def commentor_agent : AgentDef :=
  { name := "CommentorAgent"
    description :=
      "Uses the context gathered by the context agent to draft a pull review comment."
    tools := ["add_comment_to_state"]
    can_handoff_to := ["ContextAgent", "ReviewAndPostingAgent"] }

/-- From `src/agent.py` (`review_and_posting_agent`). -/
def review_and_posting_agent : AgentDef :=
  { name := "ReviewAndPostingAgent"
    description :=
      "Reviews the draft comment and posts the final review to GitHub."
    tools := ["add_final_review_to_state", "post_review_to_github"]
    can_handoff_to := ["CommentorAgent"] }

/-- The agent registry of the `AgentWorkflow` construction in
`src/agent.py`. -/
def workflow_agents : List AgentDef :=
  [context_agent, commentor_agent, review_and_posting_agent]

/-- A configured workflow: the registry, root agent and initial state come
from the `AgentWorkflow` construction in `src/agent.py`; the turn-count
ceiling is configuration of the orchestration loop per the specification. -/
structure Workflow where
  agents : List AgentDef
  root_agent : String
  initial_state : StateMap
  ceiling : Nat
deriving Repr, DecidableEq

/-- From `src/agent.py` (`workflow_agent`): the workflow as configured in
this program, parameterised by the spec-level turn-count ceiling. -/
def workflow_agent (ceiling : Nat) : Workflow :=
  { agents := workflow_agents
    root_agent := review_and_posting_agent.name
    initial_state :=
      [("gathered_contexts", ""), ("review_comment", ""),
       ("final_review_comment", "")]
    ceiling := ceiling }

/-! ## Orchestration loop

The engine below is modelled from the spec (sections 4.4 and 4.5): the
`AgentWorkflow` class executing the configuration is library code, not part
of the repository source. -/

/-- Modelled from the spec: lookup of a registered agent by name (the
`AgentWorkflow` agent registry). -/
def lookupAgent (wf : Workflow) (nm : String) : Option AgentDef :=
  List.find? (fun a => a.name == nm) wf.agents

/-- Modelled from the spec: whether `nm` names a registered agent. -/
def isRegistered (wf : Workflow) (nm : String) : Bool :=
  List.any wf.agents (fun a => a.name == nm)

/-- Modelled from the spec: the allowed handoff targets of the named agent
(empty when the name is not registered). -/
def allowedTargets (wf : Workflow) (nm : String) : List String :=
  match lookupAgent wf nm with
  | some a => a.can_handoff_to
  | none => []

/-- Modelled from the spec: one tool call of a decision — either one of the
three state-mutating tools of `src/agent.py` with its string argument, or a
call to an external (GitHub) tool, which leaves the shared state untouched
and contributes only its result string to history. -/
inductive ToolCallRequest
  | stateOp (op : StateOp) (arg : String)
  | externalCall (result : String)

/-- Modelled from the spec (section 6): the Reasoning Provider's decision
for one turn. -/
inductive Decision
  | finalText (t : String)
  | toolCalls (calls : List ToolCallRequest)
  | handoff (target : String)

/-- Modelled from the spec (section 4.5): the run status. -/
inductive RunStatus
  | Running (current_agent : String) (turn_count : Nat)
  | Completed (final_text : String)
  | Failed (reason : String)
deriving Repr, DecidableEq

/-- Modelled from the spec: an ordered history/event-stream entry. -/
inductive Event
  | toolResult (msg : String)
  | handoffAccepted (fromAgent toAgent : String)
  | handoffRejected (fromAgent toAgent : String)
deriving Repr, DecidableEq

/-- Modelled from the spec: one run's full state — status, shared state
store, and history. -/
structure RunState where
  status : RunStatus
  state : StateMap
  history : List Event

/-- Modelled from the spec (section 4.5, step 3): dispatch the tool calls
of one decision sequentially, threading the shared state and appending each
tool result to history. -/
def applyCalls (st : StateMap) (hist : List Event) :
    List ToolCallRequest → StateMap × List Event
  | [] => (st, hist)
  | ToolCallRequest.stateOp op arg :: rest =>
      applyCalls (runOp op st arg).1
        (hist ++ [Event.toolResult (runOp op st arg).2]) rest
  | ToolCallRequest.externalCall r :: rest =>
      applyCalls st (hist ++ [Event.toolResult r]) rest

/-- Modelled from the spec (sections 4.4 and 4.5): one turn of the
orchestration loop.  Terminal states absorb; an exhausted turn budget fails
the run before the decision is consulted (so turn `ceiling + 1` never
executes); a final text completes the run; tool calls keep the current
agent and increment the turn count; a handoff is checked against the
current agent's allowed targets — accepted it swaps the current agent and
increments the turn count, rejected it leaves status untouched and surfaces
the rejection into history. -/
def stepTurn (wf : Workflow) (st : RunState) (d : Decision) : RunState :=
  match st.status with
  | RunStatus.Running cur tc =>
      if wf.ceiling ≤ tc then
        { st with status := RunStatus.Failed "TurnBudgetExhausted" }
      else
        match d with
        | Decision.finalText t => { st with status := RunStatus.Completed t }
        | Decision.toolCalls calls =>
            { status := RunStatus.Running cur (tc + 1)
              state := (applyCalls st.state st.history calls).1
              history := (applyCalls st.state st.history calls).2 }
        | Decision.handoff target =>
            if target ∈ allowedTargets wf cur then
              { st with
                status := RunStatus.Running target (tc + 1)
                history := st.history ++ [Event.handoffAccepted cur target] }
            else
              { st with
                history := st.history ++ [Event.handoffRejected cur target] }
  | _ => st

/-- Modelled from the spec: the initial run state — `Running(root_agent, 0)`
with the configured initial shared state and empty history. -/
def initRun (wf : Workflow) : RunState :=
  { status := RunStatus.Running wf.root_agent 0
    state := wf.initial_state
    history := [] }

/-- Modelled from the spec: drive the loop for up to `fuel` turns, asking
the Reasoning Provider (`provider`) for one decision per turn; terminal
states stop the loop. -/
def runLoop (wf : Workflow) (provider : RunState → Decision) :
    Nat → RunState → RunState
  | 0, s => s
  | Nat.succ fuel, s =>
      match s.status with
      | RunStatus.Running _ _ => runLoop wf provider fuel (stepTurn wf s (provider s))
      | _ => s

/-! ## The post-workflow phase of `main` (from `src/agent.py`) -/

/-- From `src/agent.py` (`main`, after the workflow run): read
`final_review_comment` from the workflow state; if it is truthy (a
non-empty string) call `post_review_to_github(pr_number,
final_review_comment)` — represented by its argument pair — otherwise post
nothing. -/
def main_post_phase (pr_number : Nat) (st : StateMap) : Option (Nat × String) :=
  match getKey st "final_review_comment" with
  | some final_review_comment =>
      if final_review_comment = "" then none
      else some (pr_number, final_review_comment)
  | none => none

/-- The posts issued over a whole run: those made by tool calls during the
workflow (`workflow_posts`, as argument pairs of `post_review_to_github`)
followed by the post `main` makes from the final state, if any. -/
def total_posts (workflow_posts : List (Nat × String)) (pr_number : Nat)
    (st : StateMap) : List (Nat × String) :=
  workflow_posts ++ (main_post_phase pr_number st).toList

/-- A Reasoning Provider that always requests a handoff: from the
CommentorAgent to the ReviewAndPostingAgent, and from any other agent to
the CommentorAgent (legal from every agent registered in this program's
workflow). -/
def cyclingProvider : RunState → Decision :=
  fun s =>
    match s.status with
    | RunStatus.Running cur _ =>
        Decision.handoff
          (if cur = "CommentorAgent" then "ReviewAndPostingAgent"
           else "CommentorAgent")
    | _ => Decision.finalText ""

/-! ## Lemmas about the state map -/

theorem getKey_setKey_same (s : StateMap) (k v : String) :
    getKey (setKey s k v) k = some v := by
  induction s with
  | nil => simp [setKey, getKey]
  | cons p rest ih =>
      obtain ⟨k', v'⟩ := p
      by_cases h : k' = k
      · simp [setKey, getKey, h]
      · simp [setKey, getKey, h, ih]

theorem getKey_setKey_other (s : StateMap) (k v k' : String) (h : k' ≠ k) :
    getKey (setKey s k v) k' = getKey s k' := by
  induction s with
  | nil => simp [setKey, getKey, Ne.symm h]
  | cons p rest ih =>
      obtain ⟨k0, v0⟩ := p
      by_cases h0 : k0 = k
      · subst h0
        simp [setKey, getKey, Ne.symm h]
      · by_cases h1 : k0 = k'
        · simp [setKey, getKey, h0, h1, h]
        · simp [setKey, getKey, h0, h1, ih]

theorem runOp_eq_setKey (op : StateOp) (st : StateMap) (v : String) :
    (runOp op st v).1 = setKey st (opKey op) v := by
  cases op <;>
    rfl

theorem opKey_injective (op op2 : StateOp) (h : op2 ≠ op) :
    opKey op ≠ opKey op2 := by
  cases op <;> cases op2 <;> revert h <;> decide

theorem getKey_setKey_ne_none (s : StateMap) (k v k' : String)
    (h : getKey s k' ≠ none) : getKey (setKey s k v) k' ≠ none := by
  by_cases hk : k' = k
  · subst hk
    rw [getKey_setKey_same]
    exact Option.some_ne_none v
  · rw [getKey_setKey_other s k v k' hk]
    exact h

/-! ## Claim theorems about the state-update tools -/

/-- Claim C1: every state-update operation (`add_context_to_state`,
`add_comment_to_state`, `add_final_review_to_state`) overwrites exactly its
own key and leaves every other key's value untouched; two successive writes
to the same key leave the second value; and a key written by one update
survives a different update. -/
theorem C1_state_update_shallow_overwrite
    (op op2 : StateOp) (st : StateMap) (v v2 : String) (k : String) :
    getKey (runOp op st v).1 (opKey op) = some v
    ∧ (k ≠ opKey op → getKey (runOp op st v).1 k = getKey st k)
    ∧ getKey (runOp op (runOp op st v).1 v2).1 (opKey op) = some v2
    ∧ (op2 ≠ op →
        getKey (runOp op2 (runOp op st v).1 v2).1 (opKey op) = some v) := by
  refine ⟨?_, ?_, ?_, ?_⟩
  · rw [runOp_eq_setKey]
    exact getKey_setKey_same st (opKey op) v
  · intro hk
    rw [runOp_eq_setKey]
    exact getKey_setKey_other st (opKey op) v k hk
  · rw [runOp_eq_setKey, runOp_eq_setKey]
    exact getKey_setKey_same _ (opKey op) v2
  · intro hop
    rw [runOp_eq_setKey, runOp_eq_setKey,
      getKey_setKey_other _ (opKey op2) v2 (opKey op) (opKey_injective op op2 hop)]
    exact getKey_setKey_same st (opKey op) v

/-- Witness for C1 at concrete inputs. -/
theorem C1_state_update_shallow_overwrite_witness :
    getKey (runOp StateOp.addContext [] "a").1 (opKey StateOp.addContext)
        = some "a"
    ∧ getKey (runOp StateOp.addContext [] "a").1 "x" = getKey [] "x"
    ∧ getKey (runOp StateOp.addContext (runOp StateOp.addContext [] "a").1
        "b").1 (opKey StateOp.addContext) = some "b"
    ∧ getKey (runOp StateOp.addComment (runOp StateOp.addContext [] "a").1
        "b").1 (opKey StateOp.addContext) = some "a" := by
  have h := C1_state_update_shallow_overwrite StateOp.addContext
    StateOp.addComment [] "a" "b" "x"
  exact ⟨h.1, h.2.1 (by decide), h.2.2.1, h.2.2.2 (by decide)⟩

/-! ## Claim theorems about the GitHub tool handlers -/

/-- Claim C2: every tool handler catches a failure raised inside it and
returns a failure-shaped result of its ordinary return type carrying the
underlying message, so no input makes a handler propagate an uncaught
error: a raising `get_pull` or `get_commits` yields the `error` dict of
`get_pr_details` (whose result is always one of its two dict shapes); a
raising fetch or decode yields the error string of `get_file_contents`; a
raising commit fetch yields the one-element `error` list of
`get_pr_commit_details`; and a raising pull fetch, or failure of both
posting paths, yields the error string of `post_review_to_github`. -/
theorem C2_handlers_catch_failures
    (e re : String) (commits : Except String (List String))
    (pr : PullRequestData) (c : String)
    (r i : Except String Nat) (n : Nat) (cm : String) (env : PRFetchEnv) :
    get_pr_details ⟨Except.error e, commits⟩
        = PRDetailsResult.error ("Failed to fetch PR details: " ++ e)
    ∧ get_pr_details ⟨Except.ok pr, Except.error e⟩
        = PRDetailsResult.error ("Failed to fetch PR details: " ++ e)
    ∧ ((∃ dd, get_pr_details env = PRDetailsResult.details dd)
        ∨ (∃ m, get_pr_details env = PRDetailsResult.error m))
    ∧ get_file_contents ⟨Except.error e⟩ = "Error fetching file: " ++ e
    ∧ get_file_contents ⟨Except.ok ⟨"base64", Except.error e, c⟩⟩
        = "Error fetching file: " ++ e
    ∧ get_pr_commit_details ⟨Except.error e⟩
        = [CommitFileEntry.error ("Failed to fetch commit details: " ++ e)]
    ∧ post_review_to_github ⟨Except.error e, r, i⟩ n cm
        = "Error posting review: " ++ e
    ∧ post_review_to_github ⟨Except.ok (), Except.error re, Except.error e⟩ n cm
        = "Error posting review: " ++ e := by
  refine ⟨rfl, rfl, ?_, rfl, ?_, rfl, rfl, rfl⟩
  · cases get_pr_details env with
    | details dd => exact Or.inl ⟨dd, rfl⟩
    | error m => exact Or.inr ⟨m, rfl⟩
  · rfl

/-- Claim C4: in the workflow registered in this program, every handoff
target of every agent names another registered agent, and no agent lists
itself. -/
theorem C4_handoff_targets_wellformed :
    ∀ a ∈ workflow_agents, ∀ t ∈ a.can_handoff_to,
      (∃ b ∈ workflow_agents, b.name = t) ∧ t ≠ a.name := by
  decide

/-- Witness for C4 at a concrete agent and target. -/
theorem C4_handoff_targets_wellformed_witness :
    (∃ b ∈ workflow_agents, b.name = "CommentorAgent")
      ∧ "CommentorAgent" ≠ context_agent.name :=
  C4_handoff_targets_wellformed context_agent (by decide) "CommentorAgent"
    (by decide)

/-- Claim C6: `post_review_to_github` reports the dual-path attempt as
exactly one result string: a failing pull fetch yields the error string
with its message regardless of the posting outcomes; a successful review
API call yields the review success message without consulting the comment
API; the comment API is used exactly when the review API fails, yielding
the comment success message; and if it too fails, the outer handler yields
the error string. -/
theorem C6_dual_path_post (e re : String) (r i : Except String Nat)
    (n rid cid : Nat) (cm : String) :
    post_review_to_github ⟨Except.error e, r, i⟩ n cm
        = "Error posting review: " ++ e
    ∧ post_review_to_github ⟨Except.ok (), Except.ok rid, i⟩ n cm
        = "Review posted successfully to PR #" ++ toString n
          ++ ". Review ID: " ++ toString rid
    ∧ post_review_to_github ⟨Except.ok (), Except.error re, Except.ok cid⟩ n cm
        = "Comment posted successfully to PR #" ++ toString n
          ++ ". Comment ID: " ++ toString cid
    ∧ post_review_to_github ⟨Except.ok (), Except.error re, Except.error e⟩ n cm
        = "Error posting review: " ++ e :=
  ⟨rfl, rfl, rfl, rfl⟩

/-- Claim C7: every run of the configured workflow starts in
`Running(root_agent, 0)` with the ReviewAndPostingAgent as the configured
root, and the shared state starts as the initial default mapping binding
exactly `gathered_contexts`, `review_comment` and `final_review_comment`
(each to the empty string). -/
theorem C7_initial_run_state (N : Nat) :
    (initRun (workflow_agent N)).status
        = RunStatus.Running review_and_posting_agent.name 0
    ∧ (workflow_agent N).root_agent = review_and_posting_agent.name
    ∧ review_and_posting_agent.name = "ReviewAndPostingAgent"
    ∧ (initRun (workflow_agent N)).state
        = [("gathered_contexts", ""), ("review_comment", ""),
           ("final_review_comment", "")]
    ∧ getKey (initRun (workflow_agent N)).state "gathered_contexts" = some ""
    ∧ getKey (initRun (workflow_agent N)).state "review_comment" = some ""
    ∧ getKey (initRun (workflow_agent N)).state "final_review_comment"
        = some "" := by
  refine ⟨rfl, rfl, rfl, rfl, ?_, ?_, ?_⟩ <;>
    simp [initRun, workflow_agent, getKey]

/-- Claim C10: `get_file_contents` returns a plain string in both the
success and the failure case — the failure case is exactly `"Error fetching
file: "` followed by the exception message, a non-base64-encoded file is
returned undecoded — and a success whose content happens to be such an
error string is indistinguishable from an actual error result. -/
theorem C10_get_file_contents_stringly
    (e c enc : String) (d : Except String String) :
    get_file_contents ⟨Except.error e⟩ = "Error fetching file: " ++ e
    ∧ (enc ≠ "base64" → get_file_contents ⟨Except.ok ⟨enc, d, c⟩⟩ = c)
    ∧ get_file_contents ⟨Except.ok ⟨"text", d, "Error fetching file: boom"⟩⟩
        = get_file_contents ⟨Except.error "boom"⟩ := by
  refine ⟨rfl, ?_, ?_⟩
  · intro h
    simp [get_file_contents, get_file_contents_body, pyTry, Except.bind, h]
  · rfl

/-- Witness for C10 at a concrete non-base64 file. -/
theorem C10_get_file_contents_stringly_witness :
    get_file_contents ⟨Except.ok ⟨"text", Except.error "x", "hello"⟩⟩
      = "hello" := by
  have h := C10_get_file_contents_stringly "e" "hello" "text" (Except.error "x")
  exact h.2.1 (by decide)

/-! ## Lemmas about the orchestration loop -/

theorem stepTurn_handoff_state (wf : Workflow) (s : RunState) (target : String) :
    (stepTurn wf s (Decision.handoff target)).state = s.state := by
  cases hs : s.status with
  | Running cur tc =>
      by_cases hb : wf.ceiling ≤ tc
      · simp [stepTurn, hs, hb]
      · by_cases hm : target ∈ allowedTargets wf cur
        · simp [stepTurn, hs, hb, hm]
        · simp [stepTurn, hs, hb, hm]
  | Completed t => simp [stepTurn, hs]
  | Failed r => simp [stepTurn, hs]

theorem getKey_runOp_ne_none (op : StateOp) (st : StateMap) (v k : String)
    (h : getKey st k ≠ none) : getKey (runOp op st v).1 k ≠ none := by
  rw [runOp_eq_setKey]
  exact getKey_setKey_ne_none st (opKey op) v k h

theorem getKey_applyCalls_ne_none :
    ∀ (calls : List ToolCallRequest) (st : StateMap) (hist : List Event)
      (k : String), getKey st k ≠ none →
      getKey (applyCalls st hist calls).1 k ≠ none := by
  intro calls
  induction calls with
  | nil => intro st hist k h; exact h
  | cons c rest ih =>
      intro st hist k h
      cases c with
      | stateOp op arg => exact ih _ _ _ (getKey_runOp_ne_none op st arg k h)
      | externalCall r => exact ih _ _ _ h

theorem stepTurn_legal_handoff (wf : Workflow) (s : RunState)
    (cur : String) (tc : Nat) (t : String)
    (hst : s.status = RunStatus.Running cur tc)
    (hb : tc < wf.ceiling)
    (hmem : t ∈ allowedTargets wf cur) :
    stepTurn wf s (Decision.handoff t)
      = { s with status := RunStatus.Running t (tc + 1),
                 history := s.history ++ [Event.handoffAccepted cur t] } := by
  have hb' : ¬ wf.ceiling ≤ tc := Nat.not_le.mpr hb
  simp [stepTurn, hst, hb', hmem]

theorem runLoop_terminal (wf : Workflow) (p : RunState → Decision) :
    ∀ (k : Nat) (s : RunState),
      (∀ cur tc, s.status ≠ RunStatus.Running cur tc) →
      runLoop wf p k s = s := by
  intro k s h
  cases k with
  | zero => rfl
  | succ k =>
      cases hs : s.status with
      | Running cur tc => exact absurd hs (h cur tc)
      | Completed t => simp [runLoop, hs]
      | Failed r => simp [runLoop, hs]

theorem runLoop_add (wf : Workflow) (p : RunState → Decision) :
    ∀ (m n : Nat) (s : RunState),
      runLoop wf p (m + n) s = runLoop wf p n (runLoop wf p m s) := by
  intro m
  induction m with
  | zero =>
      intro n s
      rw [Nat.zero_add]
      rfl
  | succ m ih =>
      intro n s
      rw [Nat.succ_add]
      cases hs : s.status with
      | Running cur tc =>
          have h1 : runLoop wf p (Nat.succ (m + n)) s
              = runLoop wf p (m + n) (stepTurn wf s (p s)) := by
            simp [runLoop, hs]
          have h2 : runLoop wf p (Nat.succ m) s
              = runLoop wf p m (stepTurn wf s (p s)) := by
            simp [runLoop, hs]
          rw [h1, h2, ih]
      | Completed t =>
          have hterm : ∀ j, runLoop wf p j s = s :=
            fun j => runLoop_terminal wf p j s (by simp [hs])
          rw [hterm, hterm, hterm]
      | Failed r =>
          have hterm : ∀ j, runLoop wf p j s = s :=
            fun j => runLoop_terminal wf p j s (by simp [hs])
          rw [hterm, hterm, hterm]

theorem targets_registered (N : Nat) (cur t : String)
    (h : t ∈ allowedTargets (workflow_agent N) cur) :
    isRegistered (workflow_agent N) t = true := by
  unfold allowedTargets at h
  cases hl : lookupAgent (workflow_agent N) cur with
  | none => rw [hl] at h; simp at h
  | some a =>
      rw [hl] at h
      have ha : a ∈ (workflow_agent N).agents :=
        List.mem_of_find?_eq_some hl
      have ha' : a = context_agent ∨ a = commentor_agent
          ∨ a = review_and_posting_agent := by
        simpa [workflow_agent, workflow_agents] using ha
      rcases ha' with ha' | ha' | ha' <;> subst ha'
      · have ht : t = "CommentorAgent" := by simpa [context_agent] using h
        subst ht; rfl
      · have ht : t = "ContextAgent" ∨ t = "ReviewAndPostingAgent" := by
          simpa [commentor_agent] using h
        rcases ht with ht | ht <;> subst ht <;> rfl
      · have ht : t = "CommentorAgent" := by
          simpa [review_and_posting_agent] using h
        subst ht; rfl

theorem runLoop_always_handoff (N : Nat) (provider : RunState → Decision)
    (hp : ∀ s cur tc, s.status = RunStatus.Running cur tc →
        isRegistered (workflow_agent N) cur = true →
        ∃ t, provider s = Decision.handoff t
          ∧ t ∈ allowedTargets (workflow_agent N) cur) :
    ∀ (k : Nat) (s : RunState) (cur : String) (tc : Nat),
      s.status = RunStatus.Running cur tc →
      isRegistered (workflow_agent N) cur = true →
      tc + k ≤ N →
      ∃ cur', (runLoop (workflow_agent N) provider k s).status
            = RunStatus.Running cur' (tc + k)
        ∧ isRegistered (workflow_agent N) cur' = true := by
  intro k
  induction k with
  | zero =>
      intro s cur tc hst hreg _
      exact ⟨cur, by simpa [runLoop] using hst, hreg⟩
  | succ k ih =>
      intro s cur tc hst hreg hle
      obtain ⟨t, hpt, hmem⟩ := hp s cur tc hst hreg
      have hceil : (workflow_agent N).ceiling = N := rfl
      have hb : tc < (workflow_agent N).ceiling := by
        rw [hceil]; omega
      have hstep := stepTurn_legal_handoff (workflow_agent N) s cur tc t hst hb hmem
      have hreg' := targets_registered N cur t hmem
      have hrun : runLoop (workflow_agent N) provider (Nat.succ k) s
          = runLoop (workflow_agent N) provider k
              (stepTurn (workflow_agent N) s (provider s)) := by
        simp [runLoop, hst]
      rw [hrun, hpt, hstep]
      have harith : tc + (k + 1) = (tc + 1) + k := by omega
      rw [harith]
      exact ih _ t (tc + 1) rfl hreg' (by omega)

/-! ## Claim theorems about the orchestration loop -/

/-- Claim C3: for every ceiling `N`, a run of the workflow configured in
this program whose Reasoning Provider always requests a (legal) handoff
terminates in `Failed(TurnBudgetExhausted)` at exactly turn `N`: each of
the first `N` turns leaves the run `Running` with turn count equal to the
number of turns executed, one more turn fails the run with
`TurnBudgetExhausted`, and that failing step never consults the provider's
decision (turn `N + 1` never executes). -/
theorem C3_turn_budget_exhaustion (N : Nat) (provider : RunState → Decision)
    (hp : ∀ s cur tc, s.status = RunStatus.Running cur tc →
        isRegistered (workflow_agent N) cur = true →
        ∃ t, provider s = Decision.handoff t
          ∧ t ∈ allowedTargets (workflow_agent N) cur) :
    (runLoop (workflow_agent N) provider (N + 1)
        (initRun (workflow_agent N))).status
      = RunStatus.Failed "TurnBudgetExhausted"
    ∧ (∀ k, k ≤ N → ∃ cur,
        (runLoop (workflow_agent N) provider k
            (initRun (workflow_agent N))).status = RunStatus.Running cur k)
    ∧ (∀ s cur d d', s.status = RunStatus.Running cur N →
        stepTurn (workflow_agent N) s d = stepTurn (workflow_agent N) s d') := by
  have hinv := runLoop_always_handoff N provider hp
  have hinit : (initRun (workflow_agent N)).status
      = RunStatus.Running "ReviewAndPostingAgent" 0 := rfl
  have hreg0 : isRegistered (workflow_agent N) "ReviewAndPostingAgent" = true := rfl
  refine ⟨?_, ?_, ?_⟩
  · obtain ⟨cur', hN, hregN⟩ :=
      hinv N (initRun (workflow_agent N)) "ReviewAndPostingAgent" 0 hinit hreg0
        (by omega)
    rw [Nat.zero_add] at hN
    rw [runLoop_add (workflow_agent N) provider N 1]
    have hrun1 : runLoop (workflow_agent N) provider 1
        (runLoop (workflow_agent N) provider N (initRun (workflow_agent N)))
        = stepTurn (workflow_agent N)
            (runLoop (workflow_agent N) provider N (initRun (workflow_agent N)))
            (provider (runLoop (workflow_agent N) provider N
              (initRun (workflow_agent N)))) := by
      simp [runLoop, hN]
    rw [hrun1]
    simp [stepTurn, hN, show (workflow_agent N).ceiling ≤ N from Nat.le_refl N]
  · intro k hk
    obtain ⟨cur', hkst, _⟩ :=
      hinv k (initRun (workflow_agent N)) "ReviewAndPostingAgent" 0 hinit hreg0
        (by omega)
    rw [Nat.zero_add] at hkst
    exact ⟨cur', hkst⟩
  · intro s cur d d' hst
    have hb : (workflow_agent N).ceiling ≤ N := Nat.le_refl N
    simp [stepTurn, hst, hb]

/-- Witness for C3: ceiling 2 with the always-handoff provider
`cyclingProvider` reaches `Failed(TurnBudgetExhausted)`. -/
theorem C3_turn_budget_exhaustion_witness :
    (runLoop (workflow_agent 2) cyclingProvider 3
        (initRun (workflow_agent 2))).status
      = RunStatus.Failed "TurnBudgetExhausted" := by
  refine (C3_turn_budget_exhaustion 2 cyclingProvider ?_).1
  intro s cur tc hst hreg
  have hcur : cur = "ContextAgent" ∨ cur = "CommentorAgent"
      ∨ cur = "ReviewAndPostingAgent" := by
    have hreg' : ("ContextAgent" = cur ∨ "CommentorAgent" = cur
        ∨ "ReviewAndPostingAgent" = cur) := by
      simpa [isRegistered, workflow_agent, workflow_agents, context_agent,
        commentor_agent, review_and_posting_agent] using hreg
    tauto
  refine ⟨if cur = "CommentorAgent" then "ReviewAndPostingAgent"
    else "CommentorAgent", ?_, ?_⟩
  · simp [cyclingProvider, hst]
  · rcases hcur with h | h | h <;> subst h <;> decide

/-- Claim C5: a handoff request to a target outside the current agent's
allowed targets, on a turn within budget, is rejected: the current agent
and turn count are unchanged, the run remains `Running`, the shared state
is untouched, and the rejection is surfaced into history. -/
theorem C5_illegal_handoff_rejected (wf : Workflow) (s : RunState)
    (cur : String) (tc : Nat) (target : String)
    (hst : s.status = RunStatus.Running cur tc)
    (hb : tc < wf.ceiling)
    (hnot : target ∉ allowedTargets wf cur) :
    (stepTurn wf s (Decision.handoff target)).status = RunStatus.Running cur tc
    ∧ (stepTurn wf s (Decision.handoff target)).state = s.state
    ∧ (stepTurn wf s (Decision.handoff target)).history
        = s.history ++ [Event.handoffRejected cur target] := by
  have hb' : ¬ wf.ceiling ≤ tc := Nat.not_le.mpr hb
  refine ⟨?_, ?_, ?_⟩ <;> simp [stepTurn, hst, hb', hnot]

/-- Witness for C5: from the root ReviewAndPostingAgent, a handoff to the
ContextAgent (not among its allowed targets) is rejected. -/
theorem C5_illegal_handoff_rejected_witness :
    (stepTurn (workflow_agent 5) (initRun (workflow_agent 5))
        (Decision.handoff "ContextAgent")).status
      = RunStatus.Running "ReviewAndPostingAgent" 0
    ∧ (stepTurn (workflow_agent 5) (initRun (workflow_agent 5))
        (Decision.handoff "ContextAgent")).state
      = (initRun (workflow_agent 5)).state
    ∧ (stepTurn (workflow_agent 5) (initRun (workflow_agent 5))
        (Decision.handoff "ContextAgent")).history
      = (initRun (workflow_agent 5)).history
        ++ [Event.handoffRejected "ReviewAndPostingAgent" "ContextAgent"] :=
  C5_illegal_handoff_rejected (workflow_agent 5) (initRun (workflow_agent 5))
    "ReviewAndPostingAgent" 0 "ContextAgent" rfl (by decide) (by decide)

/-- Claim C8: no operation deletes a key from the shared state — each
state-update tool preserves every present key, a whole turn of tool calls
preserves every present key, a handoff (accepted or rejected, budget-failed
or not) never touches the shared state, and the state survives any
sequence of handoff turns unchanged, so a value written by one agent is
visible to the next. -/
theorem C8_no_key_deletion (op : StateOp) (st0 : StateMap) (v k : String)
    (wf : Workflow) (s : RunState) (target : String)
    (calls : List ToolCallRequest) (ts : List String) :
    (getKey st0 k ≠ none → getKey (runOp op st0 v).1 k ≠ none)
    ∧ (stepTurn wf s (Decision.handoff target)).state = s.state
    ∧ (getKey s.state k ≠ none →
        getKey (stepTurn wf s (Decision.toolCalls calls)).state k ≠ none)
    ∧ (List.foldl (fun s' t => stepTurn wf s' (Decision.handoff t)) s ts).state
        = s.state := by
  refine ⟨getKey_runOp_ne_none op st0 v k, stepTurn_handoff_state wf s target,
    ?_, ?_⟩
  · intro h
    cases hs : s.status with
    | Running cur tc =>
        by_cases hb : wf.ceiling ≤ tc
        · simpa [stepTurn, hs, hb] using h
        · have : (stepTurn wf s (Decision.toolCalls calls)).state
              = (applyCalls s.state s.history calls).1 := by
            simp [stepTurn, hs, hb]
          rw [this]
          exact getKey_applyCalls_ne_none calls s.state s.history k h
    | Completed t => simpa [stepTurn, hs] using h
    | Failed r => simpa [stepTurn, hs] using h
  · induction ts generalizing s with
    | nil => rfl
    | cons t rest ih =>
        rw [List.foldl_cons, ih, stepTurn_handoff_state]

/-- Witness for C8 at concrete inputs. -/
theorem C8_no_key_deletion_witness :
    (getKey (runOp StateOp.addContext [("a", "1")] "v").1 "a" ≠ none)
    ∧ (stepTurn (workflow_agent 3) (initRun (workflow_agent 3))
        (Decision.handoff "CommentorAgent")).state
      = (initRun (workflow_agent 3)).state
    ∧ (getKey (stepTurn (workflow_agent 3) (initRun (workflow_agent 3))
        (Decision.toolCalls [])).state "review_comment" ≠ none)
    ∧ (List.foldl
        (fun s' t => stepTurn (workflow_agent 3) s' (Decision.handoff t))
        (initRun (workflow_agent 3)) ["CommentorAgent", "ContextAgent"]).state
      = (initRun (workflow_agent 3)).state := by
  have h := C8_no_key_deletion StateOp.addContext [("a", "1")] "v"
    "review_comment" (workflow_agent 3) (initRun (workflow_agent 3))
    "CommentorAgent" [] ["CommentorAgent", "ContextAgent"]
  have h1 := C8_no_key_deletion StateOp.addContext [("a", "1")] "v"
    "a" (workflow_agent 3) (initRun (workflow_agent 3))
    "CommentorAgent" [] ["CommentorAgent", "ContextAgent"]
  exact ⟨h1.1 (by decide), h.2.1, h.2.2.1 (by decide), h.2.2.2⟩

/-- Claim C9: after the workflow run, `main` reads `final_review_comment`
from the final state and calls `post_review_to_github` with it exactly when
it is non-empty; so if the ReviewAndPostingAgent already posted the same
review during the workflow, the run ends with that review posted twice,
while an empty `final_review_comment` means `main` posts nothing. -/
theorem C9_main_reposts_final_review (pr : Nat) (st : StateMap) (c : String)
    (wposts : List (Nat × String)) :
    (getKey st "final_review_comment" = some c → c ≠ "" →
        main_post_phase pr st = some (pr, c))
    ∧ (getKey st "final_review_comment" = some "" →
        main_post_phase pr st = none)
    ∧ (getKey st "final_review_comment" = some c → c ≠ "" →
        total_posts [(pr, c)] pr st = [(pr, c), (pr, c)])
    ∧ (getKey st "final_review_comment" = some "" →
        total_posts wposts pr st = wposts) := by
  refine ⟨?_, ?_, ?_, ?_⟩
  · intro h hc
    simp [main_post_phase, h, hc]
  · intro h
    simp [main_post_phase, h]
  · intro h hc
    simp [total_posts, main_post_phase, h, hc]
  · intro h
    simp [total_posts, main_post_phase, h]

/-- Witness for C9 at a concrete final state. -/
theorem C9_main_reposts_final_review_witness :
    main_post_phase 7 [("final_review_comment", "r")] = some (7, "r")
    ∧ main_post_phase 7 [("final_review_comment", "")] = none
    ∧ total_posts [(7, "r")] 7 [("final_review_comment", "r")]
        = [(7, "r"), (7, "r")] := by
  have h := C9_main_reposts_final_review 7 [("final_review_comment", "r")]
    "r" []
  have h0 := C9_main_reposts_final_review 7 [("final_review_comment", "")]
    "r" []
  exact ⟨h.1 (by decide) (by decide), h0.2.1 (by decide),
    h.2.2.1 (by decide) (by decide)⟩

end AgentPy
